import Mathlib

/-!
Verification development for the "financas-do-mei" finance-tracking
application. The definitions below are a shallow embedding of the
month-aggregation logic of `src/contexts/FinanceContext.tsx`, the
withdrawal-limit logic of `src/components/forms/ExpenseForm.tsx`, and the
data-access guards of `src/hooks/useFinanceData.ts`. JavaScript `Date`
values are modelled by calendar components (year, month, day,
millisecond-of-day) ordered lexicographically, which agrees with the epoch
timestamp order on valid dates; currency amounts (JS numbers) are modelled
by rationals.
-/

/-- Calendar date-time: local calendar components of a JS `Date`.
`month` is 1-based; `ms` is the millisecond within the day. -/
structure DateTime where
  year : Nat
  month : Nat
  day : Nat
  ms : Nat
deriving DecidableEq, Repr

/-- Gregorian leap-year rule, as implemented by the JS `Date` calendar. -/
def isLeapYear (y : Nat) : Bool :=
  y % 4 == 0 && (!(y % 100 == 0) || y % 400 == 0)

/-- Number of days of month `m` (1-based) of year `y`. -/
def daysInMonth (y m : Nat) : Nat :=
  if m = 2 then (if isLeapYear y then 29 else 28)
  else if m = 4 ∨ m = 6 ∨ m = 9 ∨ m = 11 then 30
  else 31

/-- Order on date-times; for valid calendar dates this is exactly the JS
epoch-timestamp comparison used by `date-fns` and by `<=` on `Date`s. -/
def dtLe (a b : DateTime) : Bool :=
  decide (a.year < b.year) ||
    (decide (a.year = b.year) &&
      (decide (a.month < b.month) ||
        (decide (a.month = b.month) &&
          (decide (a.day < b.day) ||
            (decide (a.day = b.day) && decide (a.ms ≤ b.ms))))))

/-- date-fns `startOfMonth`: first instant of the month of `d`. -/
def startOfMonth (d : DateTime) : DateTime :=
  { year := d.year, month := d.month, day := 1, ms := 0 }

/-- date-fns `endOfMonth`: last instant (23:59:59.999) of the month of `d`. -/
def endOfMonth (d : DateTime) : DateTime :=
  { year := d.year, month := d.month, day := daysInMonth d.year d.month,
    ms := 86399999 }

/-- date-fns `isWithinInterval`: inclusive on both ends. -/
def isWithinInterval (d s e : DateTime) : Bool :=
  dtLe s d && dtLe d e

/-- The month filter used throughout `FinanceContext`: `d` is within
`[startOfMonth M, endOfMonth M]`, both ends inclusive. -/
def monthFilter (d M : DateTime) : Bool :=
  isWithinInterval d (startOfMonth M) (endOfMonth M)

/-- date-fns `getMonth` (0-based month index). -/
def getMonth (d : DateTime) : Nat := d.month - 1

/-- date-fns `getYear`. -/
def getYear (d : DateTime) : Nat := d.year

/-- date-fns `setMonth d idx` (0-based `idx`): sets the month, clamping the
day-of-month to the length of the target month in the date's own year. -/
def dfSetMonth (d : DateTime) (idx : Nat) : DateTime :=
  { d with month := idx + 1, day := min d.day (daysInMonth d.year (idx + 1)) }

/-- date-fns `setYear`: native `Date.setFullYear` semantics — keeps month and
day, but an out-of-range day (Feb 29 moved to a non-leap year) rolls over
into the following month. -/
def dfSetYear (d : DateTime) (y : Nat) : DateTime :=
  if d.day ≤ daysInMonth y d.month then { d with year := y }
  else { d with year := y, month := d.month + 1, day := d.day - daysInMonth y d.month }

/-- date-fns `addMonths`: calendar month addition clamping the day-of-month
to the length of the target month. -/
def addMonthsDF (d : DateTime) (k : Nat) : DateTime :=
  let t := (d.month - 1) + k
  let y := d.year + t / 12
  let m := t % 12 + 1
  { year := y, month := m, day := min d.day (daysInMonth y m), ms := d.ms }

/-- Expense payment status (`unpaid` / `paid` / `saved`). -/
inductive PaymentStatus where
  | unpaid
  | paid
  | saved
deriving DecidableEq, Repr

/-- Expense type (`business` / `personal`). -/
inductive ExpenseType where
  | business
  | personal
deriving DecidableEq, Repr

/-- Client entity of `types/finance`. -/
structure Client where
  id : String
  name : String
  createdAt : DateTime
deriving DecidableEq, Repr

/-- Income entity of `types/finance`. -/
structure Income where
  id : String
  description : String
  amount : ℚ
  clientId : String
  paymentDate : DateTime
  category : String
  createdAt : DateTime
deriving DecidableEq, Repr

/-- Expense entity of `types/finance`. -/
structure Expense where
  id : String
  description : String
  amount : ℚ
  category : String
  dueDate : DateTime
  status : PaymentStatus
  paymentSourceId : Option String
  type : ExpenseType
  isFixed : Bool
  createdAt : DateTime
deriving DecidableEq, Repr

/-- Investment entity of `types/finance`. -/
structure Investment where
  id : String
  description : String
  amount : ℚ
  category : String
  date : DateTime
  createdAt : DateTime
deriving DecidableEq, Repr

/-- `filteredIncomes` of `FinanceContext`: incomes whose `paymentDate` falls
in the selected month. -/
def filteredIncomesFn (incomes : List Income) (M : DateTime) : List Income :=
  incomes.filter (fun income =>
    isWithinInterval income.paymentDate (startOfMonth M) (endOfMonth M))

/-- The `createdYear < targetYear || (createdYear === targetYear &&
createdMonth <= targetMonth)` test of `filteredExpenses` (0-based month
indices, as produced by date-fns `getMonth`). -/
def createdOnOrBefore (e : Expense) (M : DateTime) : Bool :=
  decide (getYear e.createdAt < getYear M) ||
    (decide (getYear e.createdAt = getYear M) &&
      decide (getMonth e.createdAt ≤ getMonth M))

/-- The filter stage of `filteredExpenses`: keep an expense when its due date
is in the selected month, or when it is fixed and was created in or before
the selected month. -/
def expenseKeep (M : DateTime) (e : Expense) : Bool :=
  isWithinInterval e.dueDate (startOfMonth M) (endOfMonth M)
  || (e.isFixed && createdOnOrBefore e M)

/-- The map stage of `filteredExpenses`: a fixed expense whose due date lies
outside the selected month has its due date re-mapped by
`setYear(setMonth(originalDate, targetMonth), targetYear)`. -/
def expenseAdjust (M : DateTime) (e : Expense) : Expense :=
  if e.isFixed && !(isWithinInterval e.dueDate (startOfMonth M) (endOfMonth M)) then
    { e with dueDate := dfSetYear (dfSetMonth e.dueDate (getMonth M)) (getYear M) }
  else e

/-- `filteredExpenses` of `FinanceContext` (filter, then due-date remap). -/
def filteredExpensesFn (expenses : List Expense) (M : DateTime) : List Expense :=
  (expenses.filter (expenseKeep M)).map (expenseAdjust M)

/-- `filteredInvestments` of `FinanceContext`. -/
def filteredInvestmentsFn (investments : List Investment) (M : DateTime) : List Investment :=
  investments.filter (fun investment =>
    isWithinInterval investment.date (startOfMonth M) (endOfMonth M))

/-- `totalWithdrawals` of `calculateSummary`: paid business expenses of
category `"Saque"`, over the month-filtered (not type-filtered) set. -/
def totalWithdrawalsFn (fExpenses : List Expense) : ℚ :=
  ((fExpenses.filter (fun e =>
    e.type == ExpenseType.business && e.category == "Saque"
      && e.status == PaymentStatus.paid)).map Expense.amount).sum

/-- `businessExpensesWithoutWithdrawals` of `calculateSummary`: business
expenses of any status whose category is not `"Saque"`. -/
def businessExpensesWithoutWithdrawalsFn (fExpenses : List Expense) : ℚ :=
  ((fExpenses.filter (fun e =>
    e.type == ExpenseType.business && e.category != "Saque")).map Expense.amount).sum

/-- `personalPaidExpenses` of `calculateSummary`. -/
def personalPaidExpensesFn (fExpenses : List Expense) : ℚ :=
  ((fExpenses.filter (fun e =>
    e.type == ExpenseType.personal && e.status == PaymentStatus.paid)).map Expense.amount).sum

/-- The derived `FinancialSummary` record returned by `calculateSummary`. -/
structure FinancialSummary where
  totalIncome : ℚ
  totalExpenses : ℚ
  totalInvestments : ℚ
  paidExpenses : ℚ
  unpaidExpenses : ℚ
  savedExpenses : ℚ
  availableBalance : ℚ
  businessBalance : ℚ
  personalBalance : ℚ
  totalWithdrawals : ℚ
  personalPaidExpenses : ℚ
  expensesBySource : String → ℚ

/-- `calculateSummary` of `FinanceContext`, over the already month-filtered
income/expense/investment lists and an optional type filter. -/
def calculateSummary (t : Option ExpenseType) (fIncomes : List Income)
    (fExpenses : List Expense) (fInvestments : List Investment) : FinancialSummary :=
  let typeFilteredExpenses : List Expense := match t with
    | some ty => fExpenses.filter (fun e => e.type == ty)
    | none => fExpenses
  let totalIncome : ℚ :=
    if t = some ExpenseType.personal then 0 else (fIncomes.map Income.amount).sum
  let totalExpenses := (typeFilteredExpenses.map Expense.amount).sum
  let totalInvestments : ℚ :=
    if t = some ExpenseType.personal then 0 else (fInvestments.map Investment.amount).sum
  let paidExpenses := ((typeFilteredExpenses.filter
    (fun e => e.status == PaymentStatus.paid)).map Expense.amount).sum
  let unpaidExpenses := ((typeFilteredExpenses.filter
    (fun e => e.status == PaymentStatus.unpaid)).map Expense.amount).sum
  let savedExpenses := ((typeFilteredExpenses.filter
    (fun e => e.status == PaymentStatus.saved)).map Expense.amount).sum
  let expensesBySource : String → ℚ := fun cid =>
    ((typeFilteredExpenses.filter (fun e => e.paymentSourceId == some cid)).map
      Expense.amount).sum
  let totalWithdrawals := totalWithdrawalsFn fExpenses
  let businessExpensesWithoutWithdrawals := businessExpensesWithoutWithdrawalsFn fExpenses
  let personalPaidExpenses := personalPaidExpensesFn fExpenses
  let businessBalance :=
    totalIncome - businessExpensesWithoutWithdrawals - totalWithdrawals - totalInvestments
  let personalBalance := totalWithdrawals - personalPaidExpenses
  { totalIncome, totalExpenses, totalInvestments, paidExpenses, unpaidExpenses,
    savedExpenses,
    availableBalance := totalIncome - paidExpenses - totalInvestments,
    businessBalance, personalBalance, totalWithdrawals, personalPaidExpenses,
    expensesBySource }

example : daysInMonth 2024 2 = 29 := by decide
example : daysInMonth 2025 2 = 28 := by decide
example : addMonthsDF ⟨2025, 1, 31, 0⟩ 1 = ⟨2025, 2, 28, 0⟩ := by decide
example : dfSetYear (dfSetMonth ⟨2024, 1, 31, 0⟩ 1) 2025 = ⟨2025, 3, 1, 0⟩ := by decide

/-- The withdrawal-limit exclusion test of `ExpenseForm`:
`!editMode || exp.id !== expense?.id`, with `excludeId` the id of the
expense currently being edited (when any). -/
def notExcluded (excludeId : Option String) (e : Expense) : Bool :=
  match excludeId with
  | none => true
  | some eid => e.id != eid

/-- Result of the `withdrawalLimits` memo of `ExpenseForm`: the overall
ceiling and the per-client ceilings (in client-list order). -/
structure WithdrawalLimits where
  availableTotal : ℚ
  clientLimits : List (String × ℚ)
deriving DecidableEq, Repr

/-- The `withdrawalLimits` computation of `ExpenseForm`, over ALL incomes
and expenses (not month-filtered). -/
def withdrawalLimitsFn (today : DateTime) (clients : List Client)
    (incomes : List Income) (expenses : List Expense)
    (excludeId : Option String) : WithdrawalLimits :=
  let totalReceived : ℚ :=
    ((incomes.filter (fun inc => dtLe inc.paymentDate today)).map Income.amount).sum
  let existingWithdrawals : ℚ :=
    ((expenses.filter (fun e => e.category == "Saque" && e.type == ExpenseType.business
      && notExcluded excludeId e)).map Expense.amount).sum
  let availableTotal := max 0 (totalReceived - existingWithdrawals)
  let clientLimits := clients.map (fun c =>
    let clientIncome : ℚ :=
      ((incomes.filter (fun inc => inc.clientId == c.id && dtLe inc.paymentDate today)).map
        Income.amount).sum
    let clientWithdrawals : ℚ :=
      ((expenses.filter (fun e => e.category == "Saque" && e.type == ExpenseType.business
        && e.paymentSourceId == some c.id && notExcluded excludeId e)).map
        Expense.amount).sum
    (c.id, max 0 (clientIncome - clientWithdrawals)))
  { availableTotal, clientLimits }

/-- Read of a JS `Record<string, number>` built by successive assignments:
the LAST assignment to a key wins; an absent key reads as `undefined`. -/
def recordOf (l : List (String × ℚ)) : String → Option ℚ :=
  l.foldl (fun f p => fun k => if k = p.1 then some p.2 else f k) (fun _ => none)

/-- The state of the expense form at submission time. `amount` and
`dueDate` are the parsed values (`none` models an empty input);
`paymentSourceId` is the raw select value (`""` = no source). -/
structure ExpenseFormState where
  description : String
  amount : Option ℚ
  category : String
  dueDate : Option (Nat × Nat × Nat)
  status : PaymentStatus
  paymentSourceId : String
  isFixed : Bool
  months : Nat
deriving DecidableEq, Repr

/-- Expense payload built by `handleSubmit` (an Expense minus id and
createdAt), passed to add/update and to `createFixedExpenseCopies`. -/
structure ExpenseData where
  description : String
  amount : ℚ
  category : String
  dueDate : DateTime
  status : PaymentStatus
  paymentSourceId : Option String
  type : ExpenseType
  isFixed : Bool
deriving DecidableEq, Repr

/-- Which persisted record a successful submission writes. -/
inductive SaveTarget where
  | add
  | update (id : String)
deriving DecidableEq, Repr

/-- A successful submission: the write target, the payload, and how many
fixed-expense copies are created alongside it. -/
structure SaveAction where
  target : SaveTarget
  data : ExpenseData
  copies : Nat
deriving DecidableEq, Repr

/-- Outcome of `handleSubmit`: silently ignored (missing required field),
rejected naming a ceiling, or saved. -/
inductive SubmitResult where
  | noop
  | rejectedTotal (limit : ℚ)
  | rejectedClient (clientName : String) (limit : ℚ)
  | saved (action : SaveAction)
deriving DecidableEq, Repr

/-- JS `String.prototype.trim`: strip whitespace from both ends (structural
implementation, equivalent to `String.trim` on these inputs). -/
def strTrim (s : String) : String :=
  ⟨((s.data.dropWhile Char.isWhitespace).reverse.dropWhile Char.isWhitespace).reverse⟩

/-- Client-name lookup used in the client-limit error message. -/
def clientNameOf (clients : List Client) (psid : String) : String :=
  ((clients.find? (fun c => c.id == psid)).map Client.name).getD "Cliente"

/-- The client-limit read of `handleSubmit`:
`paymentSourceId && withdrawalLimits.clientLimits[paymentSourceId] !== undefined`. -/
def clientLimOf (L : WithdrawalLimits) (psid : String) : Option ℚ :=
  if psid = "" then none else recordOf L.clientLimits psid

/-- The `expenseData` record built by `handleSubmit`; the due date is
`new Date(year, month-1, day, 12, 0, 0)`. -/
def expenseDataOf (ty : ExpenseType) (f : ExpenseFormState) (a : ℚ)
    (y m d : Nat) : ExpenseData :=
  { description := strTrim f.description, amount := a, category := f.category,
    dueDate := ⟨y, m, d, 43200000⟩, status := f.status,
    paymentSourceId := if f.paymentSourceId = "" then none else some f.paymentSourceId,
    type := ty, isFixed := f.isFixed }

/-- The save performed by `handleSubmit` once validation passes: update when
editing, add otherwise; `months` fixed-expense copies when requested. -/
def savedAction (editing : Option Expense) (ty : ExpenseType)
    (f : ExpenseFormState) (a : ℚ) (y m d : Nat) : SaveAction :=
  { target := match editing with
      | some e0 => SaveTarget.update e0.id
      | none => SaveTarget.add,
    data := expenseDataOf ty f a y m d,
    copies := if f.isFixed ∧ 0 < f.months then f.months else 0 }

/-- `handleSubmit` of `ExpenseForm`: required-field guard, then the
`Saque`-ceiling validation (total ceiling before per-client ceiling), then
the save. `editing` is `some` of the expense under edit in edit mode. -/
def handleSubmit (today : DateTime) (clients : List Client)
    (incomes : List Income) (expenses : List Expense)
    (editing : Option Expense) (ty : ExpenseType)
    (f : ExpenseFormState) : SubmitResult :=
  match f.amount, f.dueDate with
  | some a, some (y, m, d) =>
    if strTrim f.description = "" ∨ f.category = "" then SubmitResult.noop
    else if f.category = "Saque" ∧ ty = ExpenseType.business then
      let L := withdrawalLimitsFn today clients incomes expenses (editing.map Expense.id)
      if a > L.availableTotal then SubmitResult.rejectedTotal L.availableTotal
      else match clientLimOf L f.paymentSourceId with
        | some lim =>
          if a > lim then
            SubmitResult.rejectedClient (clientNameOf clients f.paymentSourceId) lim
          else SubmitResult.saved (savedAction editing ty f a y m d)
        | none => SubmitResult.saved (savedAction editing ty f a y m d)
    else SubmitResult.saved (savedAction editing ty f a y m d)
  | _, _ => SubmitResult.noop

/-- Modelled from the spec: `createFixedExpenseCopies` is called by
`ExpenseForm.handleSubmit` but its implementation (a finance-context
method) is not among the provided sources. Per the spec: the `i`-th copy
(`i` in `1..n`) has `dueDate = template.dueDate + i` calendar months
(day-of-month clamped), `status` reset to `unpaid`, `paymentSourceId`
cleared, `isFixed = true`, and a freshly generated id; `freshId` models the
backend id generator and `now` the copies' creation instant. -/
def createFixedExpenseCopies (t : ExpenseData) (n : Nat)
    (freshId : Nat → String) (now : DateTime) : List Expense :=
  (List.range n).map (fun i =>
    { id := freshId i, description := t.description, amount := t.amount,
      category := t.category, dueDate := addMonthsDF t.dueDate (i + 1),
      status := PaymentStatus.unpaid, paymentSourceId := none,
      type := t.type, isFixed := true, createdAt := now })

/-- Observable events of a mutation method of `FinanceContext`. -/
inductive MEv where
  | flagOn
  | flagOff
  | write
  | invalidate
deriving DecidableEq, Repr

/-- The shared `setIsMutating(true); try { write; invalidate } finally
{ setIsMutating(false) }` shape of every mutation; `ok = false` models the
backend write throwing. -/
def mutationBody (ok : Bool) : List MEv :=
  [MEv.flagOn, MEv.write] ++ (if ok then [MEv.invalidate] else []) ++ [MEv.flagOff]

/-- `addClient`: guarded by `if (!user) return`. -/
def addClientRun (user : Option String) (ok : Bool) : List MEv :=
  match user with
  | none => []
  | some _ => mutationBody ok

/-- `removeClient`: no user guard. -/
def removeClientRun (ok : Bool) : List MEv := mutationBody ok

/-- `addIncome`: guarded by `if (!user) return`. -/
def addIncomeRun (user : Option String) (ok : Bool) : List MEv :=
  match user with
  | none => []
  | some _ => mutationBody ok

/-- `updateIncome`: no user guard. -/
def updateIncomeRun (ok : Bool) : List MEv := mutationBody ok

/-- `removeIncome`: no user guard. -/
def removeIncomeRun (ok : Bool) : List MEv := mutationBody ok

/-- `addExpense`: guarded by `if (!user) return`. -/
def addExpenseRun (user : Option String) (ok : Bool) : List MEv :=
  match user with
  | none => []
  | some _ => mutationBody ok

/-- `updateExpense`: no user guard. -/
def updateExpenseRun (ok : Bool) : List MEv := mutationBody ok

/-- `updateExpenseStatus`: no user guard. -/
def updateExpenseStatusRun (ok : Bool) : List MEv := mutationBody ok

/-- `removeExpense`: no user guard. -/
def removeExpenseRun (ok : Bool) : List MEv := mutationBody ok

/-- `addInvestment`: guarded by `if (!user) return`. -/
def addInvestmentRun (user : Option String) (ok : Bool) : List MEv :=
  match user with
  | none => []
  | some _ => mutationBody ok

/-- `removeInvestment`: no user guard. -/
def removeInvestmentRun (ok : Bool) : List MEv := mutationBody ok

/-- The eleven mutation methods of `FinanceContext`. -/
inductive OpKind where
  | addClient
  | removeClient
  | addIncome
  | updateIncome
  | removeIncome
  | addExpense
  | updateExpense
  | updateExpenseStatus
  | removeExpense
  | addInvestment
  | removeInvestment
deriving DecidableEq, Repr

/-- Event trace of a mutation method for a given authenticated user and
backend outcome. -/
def runOp : OpKind → Option String → Bool → List MEv
  | OpKind.addClient, u, ok => addClientRun u ok
  | OpKind.removeClient, _, ok => removeClientRun ok
  | OpKind.addIncome, u, ok => addIncomeRun u ok
  | OpKind.updateIncome, _, ok => updateIncomeRun ok
  | OpKind.removeIncome, _, ok => removeIncomeRun ok
  | OpKind.addExpense, u, ok => addExpenseRun u ok
  | OpKind.updateExpense, _, ok => updateExpenseRun ok
  | OpKind.updateExpenseStatus, _, ok => updateExpenseStatusRun ok
  | OpKind.removeExpense, _, ok => removeExpenseRun ok
  | OpKind.addInvestment, u, ok => addInvestmentRun u ok
  | OpKind.removeInvestment, _, ok => removeInvestmentRun ok

/-- Which mutation methods carry the `if (!user) return` guard. -/
def guardedByUser : OpKind → Bool
  | OpKind.addClient => true
  | OpKind.addIncome => true
  | OpKind.addExpense => true
  | OpKind.addInvestment => true
  | _ => false

/-- Value of the `isMutating` flag after replaying a trace. -/
def flagAfter (init : Bool) (tr : List MEv) : Bool :=
  tr.foldl (fun f e =>
    match e with
    | MEv.flagOn => true
    | MEv.flagOff => false
    | _ => f) init

/-- Every `write` event of the trace happens while the flag is on. -/
def writesCovered : Bool → List MEv → Bool
  | _, [] => true
  | f, MEv.write :: r => f && writesCovered f r
  | _, MEv.flagOn :: r => writesCovered true r
  | _, MEv.flagOff :: r => writesCovered false r
  | f, MEv.invalidate :: r => writesCovered f r

/-- Row of the `clients` table as fetched from the backend. -/
structure ClientRow where
  id : String
  name : String
  created_at : DateTime
  user_id : String
deriving DecidableEq, Repr

/-- Row of the `incomes` table as fetched from the backend. -/
structure IncomeRow where
  id : String
  description : String
  amount : ℚ
  client_id : String
  payment_date : DateTime
  category : String
  created_at : DateTime
deriving DecidableEq, Repr

/-- Row of the `expenses` table as fetched from the backend. -/
structure ExpenseRow where
  id : String
  description : String
  amount : ℚ
  category : String
  due_date : DateTime
  status : PaymentStatus
  payment_source_id : Option String
  type : ExpenseType
  is_fixed : Bool
  created_at : DateTime
deriving DecidableEq, Repr

/-- Row of the `investments` table as fetched from the backend. -/
structure InvestmentRow where
  id : String
  description : String
  amount : ℚ
  category : String
  date : DateTime
  created_at : DateTime
  user_id : String
deriving DecidableEq, Repr

/-- The `clients` query of `useFinanceData`: empty without a user, else the
rows of this user mapped to camelCase. -/
def clientsQueryFn (user : Option String) (rows : List ClientRow) : List Client :=
  match user with
  | none => []
  | some u => (rows.filter (fun r => r.user_id == u)).map (fun r =>
      { id := r.id, name := r.name, createdAt := r.created_at })

/-- The `incomes` query of `useFinanceData`: empty without a user; rows are
not filtered client-side (row-level security only). -/
def incomesQueryFn (user : Option String) (rows : List IncomeRow) : List Income :=
  match user with
  | none => []
  | some _ => rows.map (fun r =>
      { id := r.id, description := r.description, amount := r.amount,
        clientId := r.client_id, paymentDate := r.payment_date,
        category := r.category, createdAt := r.created_at })

/-- The `expenses` query of `useFinanceData`: empty without a user; rows are
not filtered client-side (row-level security only). -/
def expensesQueryFn (user : Option String) (rows : List ExpenseRow) : List Expense :=
  match user with
  | none => []
  | some _ => rows.map (fun r =>
      { id := r.id, description := r.description, amount := r.amount,
        category := r.category, dueDate := r.due_date, status := r.status,
        paymentSourceId := r.payment_source_id, type := r.type,
        isFixed := r.is_fixed, createdAt := r.created_at })

/-- The `investments` query of `useFinanceData`: empty without a user, else
the rows of this user mapped to camelCase. -/
def investmentsQueryFn (user : Option String) (rows : List InvestmentRow) : List Investment :=
  match user with
  | none => []
  | some u => (rows.filter (fun r => r.user_id == u)).map (fun r =>
      { id := r.id, description := r.description, amount := r.amount,
        category := r.category, date := r.date, createdAt := r.created_at })

/-- The `financial-summary` RPC query: `null` without a user, else
`data[0] || null`. -/
def financialSummaryQueryFn (α : Type) (user : Option String) (data : List α) : Option α :=
  match user with
  | none => none
  | some _ => data[0]?

/-- The `evolution-data` RPC query: empty without a user. -/
def evolutionDataQueryFn (α : Type) (user : Option String) (data : List α) : List α :=
  match user with
  | none => []
  | some _ => data

/-- The `expense-categories` RPC query: empty without a user. -/
def expenseCategoriesQueryFn (α : Type) (user : Option String) (data : List α) : List α :=
  match user with
  | none => []
  | some _ => data

/-- The `client-allocation` RPC query: empty without a user. -/
def clientAllocationQueryFn (α : Type) (user : Option String) (data : List α) : List α :=
  match user with
  | none => []
  | some _ => data

/-- The `mei-limits` RPC query: `null` without a user, else `data[0] || null`. -/
def meiLimitsQueryFn (α : Type) (user : Option String) (data : List α) : Option α :=
  match user with
  | none => none
  | some _ => data[0]?

/-- Spec-side definition, following the spec's words for comparison with
`calculateSummary`: `totalIncome = type=='personal' ? 0 : Σ income.amount
where income.paymentDate ≤ today` (income recognition rule). -/
def specTotalIncome (today : DateTime) (t : Option ExpenseType)
    (fIncomes : List Income) : ℚ :=
  if t = some ExpenseType.personal then 0
  else ((fIncomes.filter (fun i => dtLe i.paymentDate today)).map Income.amount).sum

/-- Spec-side definition, following the spec's words for comparison with
`calculateSummary`: `businessExpensesExSaque = Σ expense.amount where
type=='business' ∧ category≠'Saque' ∧ status=='paid'`. -/
def specBusinessExpensesExSaque (fExpenses : List Expense) : ℚ :=
  ((fExpenses.filter (fun e => e.type == ExpenseType.business
    && e.category != "Saque" && e.status == PaymentStatus.paid)).map Expense.amount).sum

/-- Spec-side definition, following the claim's words for comparison with
`expenseAdjust`: re-map a due date onto month `M` keeping the day-of-month,
clamped to the length of `M`. -/
def specRemapOntoMonth (d M : DateTime) : DateTime :=
  { year := M.year, month := M.month,
    day := min d.day (daysInMonth M.year M.month), ms := d.ms }

/-- C1 fixture: an income dated strictly after the fixture's "today"
(Jan 15 2025) but inside the viewed month (Jan 2025). -/
def c1FutureIncome : Income :=
  { id := "i1", description := "receivable", amount := 50, clientId := "c1",
    paymentDate := ⟨2025, 1, 20, 0⟩, category := "Servicos",
    createdAt := ⟨2025, 1, 1, 0⟩ }

/-- C4 fixture: an UNPAID business expense of a non-Saque category. -/
def c4UnpaidBusinessExpense : Expense :=
  { id := "e1", description := "hosting", amount := 100, category := "Infraestrutura",
    dueDate := ⟨2025, 1, 10, 0⟩, status := PaymentStatus.unpaid,
    paymentSourceId := none, type := ExpenseType.business, isFixed := false,
    createdAt := ⟨2025, 1, 1, 0⟩ }

/-- C5 fixture: a single received income of 100. -/
def c5Income : Income :=
  { id := "i5", description := "job", amount := 100, clientId := "c1",
    paymentDate := ⟨2025, 1, 5, 0⟩, category := "Servicos",
    createdAt := ⟨2025, 1, 1, 0⟩ }

example : (calculateSummary none [c1FutureIncome] [] []).totalIncome = 50 := by
  simp [calculateSummary, c1FutureIncome]
example : specTotalIncome ⟨2025, 1, 15, 0⟩ none [c1FutureIncome] = 0 := by
  simp [specTotalIncome, c1FutureIncome, dtLe]
example : (calculateSummary none [] [c4UnpaidBusinessExpense] []).businessBalance = -100 := by
  simp [calculateSummary, businessExpensesWithoutWithdrawalsFn, totalWithdrawalsFn,
    c4UnpaidBusinessExpense]

/-- C2 fixture: the spec's end-to-end scenario date (today = Jun 15 2025). -/
def c2Today : DateTime := ⟨2025, 6, 15, 0⟩

/-- C2 fixture: client C. -/
def c2Client : Client :=
  { id := "C", name := "Cliente C", createdAt := ⟨2025, 1, 1, 0⟩ }

/-- C2 fixture: received income of 500 from client C. -/
def c2IncomeReceived : Income :=
  { id := "i1", description := "projeto", amount := 500, clientId := "C",
    paymentDate := ⟨2025, 6, 1, 0⟩, category := "Servicos",
    createdAt := ⟨2025, 6, 1, 0⟩ }

/-- C2 fixture: future-dated income of 300 from client C. -/
def c2IncomeFuture : Income :=
  { id := "i2", description := "parcela", amount := 300, clientId := "C",
    paymentDate := ⟨2025, 7, 1, 0⟩, category := "Servicos",
    createdAt := ⟨2025, 6, 1, 0⟩ }

/-- C2 fixture: a paid business withdrawal of 200 sourced from client C. -/
def c2Withdrawal : Expense :=
  { id := "w1", description := "saque", amount := 200, category := "Saque",
    dueDate := ⟨2025, 6, 5, 0⟩, status := PaymentStatus.paid,
    paymentSourceId := some "C", type := ExpenseType.business, isFixed := false,
    createdAt := ⟨2025, 6, 5, 0⟩ }

/-- C3 fixture: today = Jun 15 2025. -/
def c3Today : DateTime := ⟨2025, 6, 15, 0⟩

/-- C3 fixture: a lifetime received income of 1000. -/
def c3Income : Income :=
  { id := "i1", description := "contrato", amount := 1000, clientId := "c1",
    paymentDate := ⟨2025, 1, 10, 0⟩, category := "Servicos",
    createdAt := ⟨2025, 1, 10, 0⟩ }

/-- C3 fixture: an existing paid business withdrawal of 400. -/
def c3Withdrawal : Expense :=
  { id := "w1", description := "saque antigo", amount := 400, category := "Saque",
    dueDate := ⟨2025, 3, 1, 0⟩, status := PaymentStatus.paid,
    paymentSourceId := none, type := ExpenseType.business, isFixed := false,
    createdAt := ⟨2025, 3, 1, 0⟩ }

/-- C3 fixture: the submitted form requesting a new withdrawal of 700. -/
def c3Form700 : ExpenseFormState :=
  { description := "novo saque", amount := some 700, category := "Saque",
    dueDate := some (2025, 7, 1), status := PaymentStatus.unpaid,
    paymentSourceId := "", isFixed := false, months := 0 }

/-- C3 fixture: the same form requesting a withdrawal of 600. -/
def c3Form600 : ExpenseFormState :=
  { description := "novo saque", amount := some 600, category := "Saque",
    dueDate := some (2025, 7, 1), status := PaymentStatus.unpaid,
    paymentSourceId := "", isFixed := false, months := 0 }

/-- C3 fixture: the edit form resubmitting the existing withdrawal's own
amount of 400. -/
def c3FormResubmit : ExpenseFormState :=
  { description := "saque antigo", amount := some 400, category := "Saque",
    dueDate := some (2025, 3, 1), status := PaymentStatus.paid,
    paymentSourceId := "", isFixed := false, months := 0 }

/-- C6 witness fixture: an income dated Feb 29 of the leap year 2024. -/
def c6Income : Income :=
  { id := "i6", description := "bissexto", amount := 10, clientId := "c1",
    paymentDate := ⟨2024, 2, 29, 0⟩, category := "Servicos",
    createdAt := ⟨2024, 2, 1, 0⟩ }

/-- C6 witness fixture: an investment dated the last instant of Dec 2024. -/
def c6Investment : Investment :=
  { id := "v6", description := "cdb", amount := 20, category := "Renda Fixa",
    date := ⟨2024, 12, 31, 86399999⟩, createdAt := ⟨2024, 12, 1, 0⟩ }

/-- C6 witness fixture: a non-fixed expense dated Jan 1 2025. -/
def c6Expense : Expense :=
  { id := "e6", description := "das", amount := 30, category := "Impostos",
    dueDate := ⟨2025, 1, 1, 0⟩, status := PaymentStatus.unpaid,
    paymentSourceId := none, type := ExpenseType.business, isFixed := false,
    createdAt := ⟨2024, 12, 15, 0⟩ }

/-- C9 fixture: a Jan 31 template (noon, as built by the form). -/
def c9Template : ExpenseData :=
  { description := "aluguel", amount := 800, category := "Moradia",
    dueDate := ⟨2025, 1, 31, 43200000⟩, status := PaymentStatus.paid,
    paymentSourceId := some "C", type := ExpenseType.personal, isFixed := true }

/-- C9 fixture: a concrete fresh-id generator for two copies. -/
def c9Fresh : Nat → String := fun i => if i = 0 then "k0" else "k1"

/-- C10 fixture: a fixed expense whose due date is Jan 31 of the leap year
2024, created Jan 2024. -/
def c10Fixed : Expense :=
  { id := "f1", description := "aluguel", amount := 900, category := "Moradia",
    dueDate := ⟨2024, 1, 31, 0⟩, status := PaymentStatus.unpaid,
    paymentSourceId := none, type := ExpenseType.personal, isFixed := true,
    createdAt := ⟨2024, 1, 10, 0⟩ }

/-- C10 fixture: the viewed month, Feb 2025 (not a leap year). -/
def c10Month : DateTime := ⟨2025, 2, 1, 0⟩

theorem monthFilter_iff_same_month (d M : DateTime) (h1 : 1 ≤ d.day)
    (h2 : d.day ≤ daysInMonth d.year d.month) (h3 : d.ms < 86400000) :
    monthFilter d M = true ↔ (d.year = M.year ∧ d.month = M.month) := by
  have hdim : d.year = M.year → d.month = M.month →
      daysInMonth d.year d.month = daysInMonth M.year M.month := by
    intro hy hm
    rw [hy, hm]
  simp only [monthFilter, isWithinInterval, startOfMonth, endOfMonth, dtLe,
    Bool.and_eq_true, Bool.or_eq_true, decide_eq_true_eq]
  omega

theorem mem_filteredIncomes (incomes : List Income) (M : DateTime) (i : Income) :
    i ∈ filteredIncomesFn incomes M ↔ i ∈ incomes ∧ monthFilter i.paymentDate M = true := by
  simp [filteredIncomesFn, List.mem_filter, monthFilter]

theorem mem_filteredInvestments (investments : List Investment) (M : DateTime)
    (v : Investment) :
    v ∈ filteredInvestmentsFn investments M ↔
      v ∈ investments ∧ monthFilter v.date M = true := by
  simp [filteredInvestmentsFn, List.mem_filter, monthFilter]

theorem expenseAdjust_isFixed (M : DateTime) (e : Expense) :
    (expenseAdjust M e).isFixed = e.isFixed := by
  rw [expenseAdjust]
  split <;> rfl

theorem expenseAdjust_of_not_fixed (M : DateTime) (e : Expense)
    (hf : e.isFixed = false) : expenseAdjust M e = e := by
  rw [expenseAdjust, hf]
  simp

theorem mem_filteredExpenses_nonFixed (expenses : List Expense) (M : DateTime)
    (e : Expense) (hf : e.isFixed = false) :
    e ∈ filteredExpensesFn expenses M ↔
      e ∈ expenses ∧ monthFilter e.dueDate M = true := by
  constructor
  · intro h
    rcases List.mem_map.mp h with ⟨x, hx, hxe⟩
    rcases List.mem_filter.mp hx with ⟨hxmem, hxkeep⟩
    have hxf : x.isFixed = false := by
      have := expenseAdjust_isFixed M x
      rw [hxe, hf] at this
      exact this.symm
    have hxeq : x = e := by
      rw [expenseAdjust_of_not_fixed M x hxf] at hxe
      exact hxe
    subst hxeq
    refine ⟨hxmem, ?_⟩
    rw [expenseKeep, hxf] at hxkeep
    simpa [monthFilter] using hxkeep
  · rintro ⟨hmem, hmf⟩
    have hkeep : expenseKeep M e = true := by
      rw [expenseKeep, hf]
      simpa [monthFilter] using hmf
    have : expenseAdjust M e ∈ filteredExpensesFn expenses M :=
      List.mem_map_of_mem _ (List.mem_filter.mpr ⟨hmem, hkeep⟩)
    rwa [expenseAdjust_of_not_fixed M e hf] at this

theorem mem_filteredExpenses_of_keep (expenses : List Expense) (M : DateTime)
    (e : Expense) (he : e ∈ expenses) (hk : expenseKeep M e = true) :
    expenseAdjust M e ∈ filteredExpensesFn expenses M :=
  List.mem_map_of_mem _ (List.mem_filter.mpr ⟨he, hk⟩)

theorem expenseAdjust_fixed_cases (M : DateTime) (e : Expense)
    (hf : e.isFixed = true) :
    expenseAdjust M e =
      (if monthFilter e.dueDate M = true then e
       else { e with dueDate := dfSetYear (dfSetMonth e.dueDate (getMonth M)) (getYear M) }) := by
  rw [expenseAdjust, hf, monthFilter]
  by_cases hW : isWithinInterval e.dueDate (startOfMonth M) (endOfMonth M) = true
  · simp [hW]
  · simp [hW]

/-- Claim C1, counterexample: `calculateSummary` applies NO
`paymentDate ≤ today` cut. With today = Jan 15 2025 and a single income of
50 dated Jan 20 2025 (strictly after today, inside the viewed month
Jan 2025), the code's `totalIncome` is 50, while the claimed value
(`specTotalIncome`, the spec formula) is 0. -/
theorem c1_counterexample :
    (calculateSummary none (filteredIncomesFn [c1FutureIncome] ⟨2025, 1, 1, 0⟩)
      [] []).totalIncome = 50
    ∧ specTotalIncome ⟨2025, 1, 15, 0⟩ none
        (filteredIncomesFn [c1FutureIncome] ⟨2025, 1, 1, 0⟩) = 0
    ∧ (calculateSummary none (filteredIncomesFn [c1FutureIncome] ⟨2025, 1, 1, 0⟩)
        [] []).totalIncome ≠
      specTotalIncome ⟨2025, 1, 15, 0⟩ none
        (filteredIncomesFn [c1FutureIncome] ⟨2025, 1, 1, 0⟩) := by
  refine ⟨?_, ?_, ?_⟩ <;>
    simp [calculateSummary, specTotalIncome, filteredIncomesFn, c1FutureIncome,
      isWithinInterval, startOfMonth, endOfMonth, dtLe, daysInMonth, isLeapYear]

/-- Claim C1 as amended: for every type filter, `totalIncome` equals 0 when
`type == 'personal'` and otherwise the sum of the amounts of ALL
month-filtered incomes, with no `paymentDate ≤ today` condition: an income
dated strictly after today still contributes in full. -/
theorem c1_amended_totalIncome (t : Option ExpenseType) (incomes : List Income)
    (M : DateTime) (fExpenses : List Expense) (fInvestments : List Investment) :
    (calculateSummary t (filteredIncomesFn incomes M) fExpenses fInvestments).totalIncome =
      if t = some ExpenseType.personal then 0
      else ((incomes.filter (fun i => monthFilter i.paymentDate M)).map Income.amount).sum := rfl

/-- Claim C4, counterexample: `businessExpensesWithoutWithdrawals` is NOT
restricted to `status == 'paid'`. A single UNPAID business expense of 100
(category ≠ "Saque") yields `businessBalance = -100`, while the claim's
formula (with the paid-only `specBusinessExpensesExSaque`) predicts 0. -/
theorem c4_counterexample :
    (calculateSummary none [] [c4UnpaidBusinessExpense] []).businessBalance = -100
    ∧ (calculateSummary none [] [c4UnpaidBusinessExpense] []).totalIncome
        - specBusinessExpensesExSaque [c4UnpaidBusinessExpense]
        - (calculateSummary none [] [c4UnpaidBusinessExpense] []).totalWithdrawals
        - (calculateSummary none [] [c4UnpaidBusinessExpense] []).totalInvestments = 0
    ∧ (calculateSummary none [] [c4UnpaidBusinessExpense] []).businessBalance ≠
      (calculateSummary none [] [c4UnpaidBusinessExpense] []).totalIncome
        - specBusinessExpensesExSaque [c4UnpaidBusinessExpense]
        - (calculateSummary none [] [c4UnpaidBusinessExpense] []).totalWithdrawals
        - (calculateSummary none [] [c4UnpaidBusinessExpense] []).totalInvestments := by
  refine ⟨?_, ?_, ?_⟩ <;>
    simp [calculateSummary, specBusinessExpensesExSaque, totalWithdrawalsFn,
      businessExpensesWithoutWithdrawalsFn, c4UnpaidBusinessExpense]

/-- Claim C4 as amended: `businessBalance = totalIncome −
businessExpensesExSaque − totalWithdrawals − totalInvestments`, where
`totalWithdrawals` sums paid business "Saque" expenses but
`businessExpensesExSaque` sums business non-"Saque" expenses of ANY status
(unpaid and saved business expenses also reduce `businessBalance`). -/
theorem c4_amended_businessBalance (t : Option ExpenseType) (fIncomes : List Income)
    (fExpenses : List Expense) (fInvestments : List Investment) :
    (calculateSummary t fIncomes fExpenses fInvestments).businessBalance =
      (calculateSummary t fIncomes fExpenses fInvestments).totalIncome
        - businessExpensesWithoutWithdrawalsFn fExpenses
        - totalWithdrawalsFn fExpenses
        - (calculateSummary t fIncomes fExpenses fInvestments).totalInvestments
    ∧ (calculateSummary t fIncomes fExpenses fInvestments).totalWithdrawals =
        totalWithdrawalsFn fExpenses
    ∧ totalWithdrawalsFn fExpenses =
        ((fExpenses.filter (fun e => e.type == ExpenseType.business
          && e.category == "Saque" && e.status == PaymentStatus.paid)).map
          Expense.amount).sum
    ∧ businessExpensesWithoutWithdrawalsFn fExpenses =
        ((fExpenses.filter (fun e => e.type == ExpenseType.business
          && e.category != "Saque")).map Expense.amount).sum :=
  ⟨rfl, rfl, rfl, rfl⟩

/-- Claim C5, counterexample: `totalIncome` is NOT type-independent — the
'personal' summary zeroes it. With a single month-filtered income of 100,
`calculateSummary('personal').totalIncome = 0` while the unfiltered
summary reports 100. -/
theorem c5_counterexample :
    (calculateSummary (some ExpenseType.personal) [c5Income] [] []).totalIncome = 0
    ∧ (calculateSummary none [c5Income] [] []).totalIncome = 100
    ∧ (calculateSummary (some ExpenseType.personal) [c5Income] [] []).totalIncome ≠
      (calculateSummary none [c5Income] [] []).totalIncome := by
  refine ⟨?_, ?_, ?_⟩ <;> simp [calculateSummary, c5Income]

/-- Claim C5 as amended: `totalWithdrawals`, `personalPaidExpenses` and
`personalBalance` are computed over the unfiltered month set and agree for
the business, personal and unfiltered summaries (as does
`businessExpensesExSaque`, a function of the unfiltered set only); but
`totalIncome` agrees only between the business and unfiltered summaries —
the personal summary returns 0 for it (and `businessBalance` agrees
between the business and unfiltered summaries). -/
theorem c5_amended_type_invariance (fIncomes : List Income)
    (fExpenses : List Expense) (fInvestments : List Investment) :
    (calculateSummary (some ExpenseType.business) fIncomes fExpenses fInvestments).totalWithdrawals =
      (calculateSummary none fIncomes fExpenses fInvestments).totalWithdrawals
    ∧ (calculateSummary (some ExpenseType.personal) fIncomes fExpenses fInvestments).totalWithdrawals =
      (calculateSummary none fIncomes fExpenses fInvestments).totalWithdrawals
    ∧ (calculateSummary (some ExpenseType.business) fIncomes fExpenses fInvestments).personalPaidExpenses =
      (calculateSummary none fIncomes fExpenses fInvestments).personalPaidExpenses
    ∧ (calculateSummary (some ExpenseType.personal) fIncomes fExpenses fInvestments).personalPaidExpenses =
      (calculateSummary none fIncomes fExpenses fInvestments).personalPaidExpenses
    ∧ (calculateSummary (some ExpenseType.business) fIncomes fExpenses fInvestments).personalBalance =
      (calculateSummary none fIncomes fExpenses fInvestments).personalBalance
    ∧ (calculateSummary (some ExpenseType.personal) fIncomes fExpenses fInvestments).personalBalance =
      (calculateSummary none fIncomes fExpenses fInvestments).personalBalance
    ∧ (calculateSummary (some ExpenseType.business) fIncomes fExpenses fInvestments).totalIncome =
      (calculateSummary none fIncomes fExpenses fInvestments).totalIncome
    ∧ (calculateSummary (some ExpenseType.personal) fIncomes fExpenses fInvestments).totalIncome = 0
    ∧ (calculateSummary (some ExpenseType.business) fIncomes fExpenses fInvestments).businessBalance =
      (calculateSummary none fIncomes fExpenses fInvestments).businessBalance :=
  ⟨rfl, rfl, rfl, rfl, rfl, rfl, rfl, rfl, rfl⟩

/-- Claim C2 (confirmed): the withdrawal ceilings of `ExpenseForm` satisfy
`availableTotal = max(0, Σ income.amount where paymentDate ≤ today − Σ
business "Saque" expense amounts excluding the expense being edited)`; for
every client `c` of the client list, `clientLimits` holds the entry
`(c.id, max(0, that client's received income − that client's "Saque"
withdrawals excluding the edited one))`; both ceilings are ≥ 0. All
incomes/expenses are used un-month-filtered. -/
theorem c2_withdrawal_limits (today : DateTime) (clients : List Client)
    (incomes : List Income) (expenses : List Expense) (excludeId : Option String)
    (c : Client) (hc : c ∈ clients) :
    (withdrawalLimitsFn today clients incomes expenses excludeId).availableTotal =
      max 0 (((incomes.filter (fun inc => dtLe inc.paymentDate today)).map
          Income.amount).sum
        - ((expenses.filter (fun e => e.category == "Saque"
            && e.type == ExpenseType.business && notExcluded excludeId e)).map
            Expense.amount).sum)
    ∧ (c.id, max 0
        (((incomes.filter (fun inc => inc.clientId == c.id
            && dtLe inc.paymentDate today)).map Income.amount).sum
          - ((expenses.filter (fun e => e.category == "Saque"
              && e.type == ExpenseType.business && e.paymentSourceId == some c.id
              && notExcluded excludeId e)).map Expense.amount).sum))
        ∈ (withdrawalLimitsFn today clients incomes expenses excludeId).clientLimits
    ∧ 0 ≤ (withdrawalLimitsFn today clients incomes expenses excludeId).availableTotal
    ∧ ∀ p ∈ (withdrawalLimitsFn today clients incomes expenses excludeId).clientLimits,
        0 ≤ p.2 := by
  refine ⟨rfl, List.mem_map.mpr ⟨c, hc, rfl⟩, le_max_left 0 _, ?_⟩
  intro p hp
  simp only [withdrawalLimitsFn] at hp
  rcases List.mem_map.mp hp with ⟨c2, _hc2, hpeq⟩
  rw [← hpeq]
  exact le_max_left 0 _

/-- Claim C2 witness: the spec's end-to-end scenario — client C with a
received income of 500 and a future income of 300, and a paid withdrawal
of 200 from C: `availableTotal = 300` and `clientLimits[C] = 300`. -/
theorem c2_witness :
    c2Client ∈ [c2Client]
    ∧ 0 ≤ (withdrawalLimitsFn c2Today [c2Client] [c2IncomeReceived, c2IncomeFuture]
        [c2Withdrawal] none).availableTotal
    ∧ (withdrawalLimitsFn c2Today [c2Client] [c2IncomeReceived, c2IncomeFuture]
        [c2Withdrawal] none).availableTotal = 300
    ∧ (("C" : String), (300 : ℚ)) ∈ (withdrawalLimitsFn c2Today [c2Client]
        [c2IncomeReceived, c2IncomeFuture] [c2Withdrawal] none).clientLimits := by
  refine ⟨List.mem_singleton.mpr rfl,
    (c2_withdrawal_limits c2Today [c2Client] [c2IncomeReceived, c2IncomeFuture]
      [c2Withdrawal] none c2Client (List.mem_singleton.mpr rfl)).2.2.1, ?_, ?_⟩
  · simp [withdrawalLimitsFn, c2Today, c2Client, c2IncomeReceived, c2IncomeFuture,
      c2Withdrawal, dtLe, notExcluded]
    norm_num
  · simp [withdrawalLimitsFn, c2Today, c2Client, c2IncomeReceived, c2IncomeFuture,
      c2Withdrawal, dtLe, notExcluded]
    norm_num

/-- Claim C3 (confirmed): on submission of a business "Saque" expense with
all required fields present, an amount above `availableTotal` is rejected
naming that ceiling (no add/update is performed); otherwise, when a client
payment source with a computed limit is chosen and the amount exceeds that
limit, it is rejected naming the client ceiling; when the amount is within
every applicable ceiling the save proceeds (update when editing, add
otherwise). When editing, `withdrawalLimitsFn` excludes the edited
expense's own id, so resubmitting its prior amount is not rejected. -/
theorem c3_saque_submission (today : DateTime) (clients : List Client)
    (incomes : List Income) (expenses : List Expense) (editing : Option Expense)
    (f : ExpenseFormState) (a : ℚ) (y m d : Nat)
    (hcat : f.category = "Saque") (hdesc : ¬ strTrim f.description = "")
    (hamt : f.amount = some a) (hdate : f.dueDate = some (y, m, d)) :
    (a > (withdrawalLimitsFn today clients incomes expenses
        (editing.map Expense.id)).availableTotal →
      handleSubmit today clients incomes expenses editing ExpenseType.business f =
        SubmitResult.rejectedTotal (withdrawalLimitsFn today clients incomes expenses
          (editing.map Expense.id)).availableTotal)
    ∧ (∀ lim : ℚ,
        a ≤ (withdrawalLimitsFn today clients incomes expenses
          (editing.map Expense.id)).availableTotal →
        clientLimOf (withdrawalLimitsFn today clients incomes expenses
          (editing.map Expense.id)) f.paymentSourceId = some lim →
        a > lim →
        handleSubmit today clients incomes expenses editing ExpenseType.business f =
          SubmitResult.rejectedClient (clientNameOf clients f.paymentSourceId) lim)
    ∧ (a ≤ (withdrawalLimitsFn today clients incomes expenses
          (editing.map Expense.id)).availableTotal →
        (∀ lim : ℚ, clientLimOf (withdrawalLimitsFn today clients incomes expenses
          (editing.map Expense.id)) f.paymentSourceId = some lim → a ≤ lim) →
        handleSubmit today clients incomes expenses editing ExpenseType.business f =
          SubmitResult.saved (savedAction editing ExpenseType.business f a y m d)) := by
  have hguard : ¬ (strTrim f.description = "" ∨ f.category = "") := by
    rw [hcat]
    simp [hdesc]
  have hsq : f.category = "Saque" ∧ ExpenseType.business = ExpenseType.business :=
    ⟨hcat, rfl⟩
  refine ⟨?_, ?_, ?_⟩
  · intro hgt
    rw [handleSubmit, hamt, hdate]
    dsimp only
    rw [if_neg hguard, if_pos hsq, if_pos hgt]
  · intro lim hle hcl hgt2
    rw [handleSubmit, hamt, hdate]
    dsimp only
    rw [if_neg hguard, if_pos hsq, if_neg (not_lt.mpr hle), hcl]
    dsimp only
    rw [if_pos hgt2]
  · intro hle hcli
    rw [handleSubmit, hamt, hdate]
    dsimp only
    rw [if_neg hguard, if_pos hsq, if_neg (not_lt.mpr hle)]
    cases hopt : clientLimOf (withdrawalLimitsFn today clients incomes expenses
        (editing.map Expense.id)) f.paymentSourceId with
    | none => rfl
    | some lim =>
      dsimp only
      rw [if_neg (not_lt.mpr (hcli lim hopt))]

/-- Claim C3 witness: with lifetime received income 1000 and an existing
withdrawal of 400, a new withdrawal of 700 is rejected naming the 600
ceiling, one of 600 is accepted, and editing the existing withdrawal and
resubmitting its own 400 is accepted (its amount is excluded from the
ceiling). -/
theorem c3_witness :
    (700 : ℚ) > (withdrawalLimitsFn c3Today [] [c3Income] [c3Withdrawal]
      ((none : Option Expense).map Expense.id)).availableTotal
    ∧ handleSubmit c3Today [] [c3Income] [c3Withdrawal] none ExpenseType.business
        c3Form700 =
      SubmitResult.rejectedTotal (withdrawalLimitsFn c3Today [] [c3Income]
        [c3Withdrawal] ((none : Option Expense).map Expense.id)).availableTotal
    ∧ handleSubmit c3Today [] [c3Income] [c3Withdrawal] none ExpenseType.business
        c3Form600 =
      SubmitResult.saved (savedAction none ExpenseType.business c3Form600 600 2025 7 1)
    ∧ handleSubmit c3Today [] [c3Income] [c3Withdrawal] (some c3Withdrawal)
        ExpenseType.business c3FormResubmit =
      SubmitResult.saved (savedAction (some c3Withdrawal) ExpenseType.business
        c3FormResubmit 400 2025 3 1) := by
  have hA : (withdrawalLimitsFn c3Today [] [c3Income] [c3Withdrawal]
      ((none : Option Expense).map Expense.id)).availableTotal = 600 := by
    simp [withdrawalLimitsFn, c3Today, c3Income, c3Withdrawal, dtLe, notExcluded]
    norm_num
  have hAE : (withdrawalLimitsFn c3Today [] [c3Income] [c3Withdrawal]
      ((some c3Withdrawal).map Expense.id)).availableTotal = 1000 := by
    simp [withdrawalLimitsFn, c3Today, c3Income, c3Withdrawal, dtLe, notExcluded]
  have h700 : (700 : ℚ) > (withdrawalLimitsFn c3Today [] [c3Income] [c3Withdrawal]
      ((none : Option Expense).map Expense.id)).availableTotal := by
    rw [hA]
    norm_num
  refine ⟨h700, ?_, ?_, ?_⟩
  · exact (c3_saque_submission c3Today [] [c3Income] [c3Withdrawal] none c3Form700
      700 2025 7 1 rfl (by decide) rfl rfl).1 h700
  · exact (c3_saque_submission c3Today [] [c3Income] [c3Withdrawal] none c3Form600
      600 2025 7 1 rfl (by decide) rfl rfl).2.2
      (by rw [hA])
      (fun lim h => by simp [clientLimOf, c3Form600] at h)
  · exact (c3_saque_submission c3Today [] [c3Income] [c3Withdrawal]
      (some c3Withdrawal) c3FormResubmit 400 2025 3 1 rfl (by decide) rfl rfl).2.2
      (by rw [hAE]; norm_num)
      (fun lim h => by simp [clientLimOf, c3FormResubmit] at h)

/-- Claim C6 (confirmed): for a valid calendar date `d`, the month filter
keeps a record iff `d` lies within `[startOfMonth M, endOfMonth M]`,
inclusive on both ends — equivalently iff `d` has the same calendar year
and month as `M` (so the last instant of December belongs to December,
Jan 1 to January, and Feb 29 of a leap year to February); the same rule
governs membership of incomes (by `paymentDate`), investments (by `date`)
and non-fixed expenses (by `dueDate`) in the filtered lists. -/
theorem c6_month_filter (d M : DateTime) (h1 : 1 ≤ d.day)
    (h2 : d.day ≤ daysInMonth d.year d.month) (h3 : d.ms < 86400000)
    (incomes : List Income) (investments : List Investment)
    (expenses : List Expense) (i : Income) (v : Investment) (e : Expense)
    (hf : e.isFixed = false) :
    (monthFilter d M = true ↔ (d.year = M.year ∧ d.month = M.month))
    ∧ (i ∈ filteredIncomesFn incomes M ↔
        i ∈ incomes ∧ monthFilter i.paymentDate M = true)
    ∧ (v ∈ filteredInvestmentsFn investments M ↔
        v ∈ investments ∧ monthFilter v.date M = true)
    ∧ (e ∈ filteredExpensesFn expenses M ↔
        e ∈ expenses ∧ monthFilter e.dueDate M = true) :=
  ⟨monthFilter_iff_same_month d M h1 h2 h3,
    mem_filteredIncomes incomes M i,
    mem_filteredInvestments investments M v,
    mem_filteredExpenses_nonFixed expenses M e hf⟩

/-- Claim C6 witness: Feb 29 2024 belongs to February 2024; the last
instant of Dec 31 2024 belongs to December 2024; Jan 1 2025 belongs to
January 2025; the filtered lists keep the corresponding records. -/
theorem c6_witness :
    ((1 : Nat) ≤ 29 ∧ 29 ≤ daysInMonth 2024 2 ∧ (0 : Nat) < 86400000
      ∧ c6Expense.isFixed = false)
    ∧ monthFilter ⟨2024, 2, 29, 0⟩ ⟨2024, 2, 10, 0⟩ = true
    ∧ c6Income ∈ filteredIncomesFn [c6Income] ⟨2024, 2, 10, 0⟩
    ∧ c6Investment ∈ filteredInvestmentsFn [c6Investment] ⟨2024, 12, 25, 0⟩
    ∧ c6Expense ∈ filteredExpensesFn [c6Expense] ⟨2025, 1, 20, 0⟩ := by
  have hFeb := c6_month_filter ⟨2024, 2, 29, 0⟩ ⟨2024, 2, 10, 0⟩ (by decide)
    (by decide) (by decide) [c6Income] [c6Investment] [c6Expense]
    c6Income c6Investment c6Expense (by decide)
  have hDec := c6_month_filter ⟨2024, 12, 31, 86399999⟩ ⟨2024, 12, 25, 0⟩ (by decide)
    (by decide) (by decide) [c6Income] [c6Investment] [c6Expense]
    c6Income c6Investment c6Expense (by decide)
  have hJan := c6_month_filter ⟨2025, 1, 1, 0⟩ ⟨2025, 1, 20, 0⟩ (by decide)
    (by decide) (by decide) [c6Income] [c6Investment] [c6Expense]
    c6Income c6Investment c6Expense (by decide)
  refine ⟨⟨by decide, by decide, by decide, by decide⟩,
    hFeb.1.mpr ⟨rfl, rfl⟩,
    hFeb.2.1.mpr ⟨List.mem_singleton.mpr rfl, by decide⟩,
    hDec.2.2.1.mpr ⟨List.mem_singleton.mpr rfl, by decide⟩,
    hJan.2.2.2.mpr ⟨List.mem_singleton.mpr rfl, by decide⟩⟩

/-- Claim C7, counterexample: `removeClient` has NO `if (!user) return`
guard — with no authenticated user it still issues its backend delete, so
not every mutating operation is a no-op when logged out. -/
theorem c7_counterexample :
    MEv.write ∈ runOp OpKind.removeClient none true
    ∧ runOp OpKind.removeClient none true ≠ [] := by decide

/-- Claim C7 as amended: with no authenticated user every data-fetching
query returns empty/none, and the four add operations (addClient,
addIncome, addExpense, addInvestment) are no-ops; but the update and
remove operations carry no user guard and still issue their backend
write. -/
theorem c7_amended_unauthenticated (k : OpKind) (ok : Bool)
    (crows : List ClientRow) (irows : List IncomeRow) (erows : List ExpenseRow)
    (vrows : List InvestmentRow) (α : Type) (l1 l2 l3 l4 l5 : List α) :
    clientsQueryFn none crows = []
    ∧ incomesQueryFn none irows = []
    ∧ expensesQueryFn none erows = []
    ∧ investmentsQueryFn none vrows = []
    ∧ financialSummaryQueryFn α none l1 = none
    ∧ evolutionDataQueryFn α none l2 = []
    ∧ expenseCategoriesQueryFn α none l3 = []
    ∧ clientAllocationQueryFn α none l4 = []
    ∧ meiLimitsQueryFn α none l5 = none
    ∧ runOp k none ok = (if guardedByUser k then [] else mutationBody ok) := by
  refine ⟨rfl, rfl, rfl, rfl, rfl, rfl, rfl, rfl, rfl, ?_⟩
  cases k <;> rfl

/-- Claim C8 (confirmed): every mutation method sets the shared
`isMutating` flag before issuing its write and clears it on every exit
path (success or thrown backend error), so every `write` event happens
under the flag and the flag is false after the trace. -/
theorem c8_mutation_flag (k : OpKind) (user : Option String) (ok : Bool) :
    writesCovered false (runOp k user ok) = true
    ∧ flagAfter false (runOp k user ok) = false := by
  cases k <;> cases user <;> cases ok <;> exact ⟨rfl, rfl⟩

/-- Claim C9 (confirmed, against the spec-modelled
`createFixedExpenseCopies`): for `n ≥ 1` and a fresh-id supply that is
injective below `n` and avoids the original's id, the call produces
exactly `n` records where the `i`-th copy (0-based `i`, so `i+1` months
ahead) has `dueDate = template.dueDate + (i+1)` calendar months with
day-of-month clamping, `status = unpaid`, `paymentSourceId` cleared,
`isFixed = true` and id `freshId i`; the ids are pairwise distinct and all
differ from the original's id. -/
theorem c9_fixed_copies (t : ExpenseData) (n : Nat) (freshId : Nat → String)
    (now : DateTime) (origId : String) (_hn : 1 ≤ n)
    (hfresh : ∀ i, i < n → freshId i ≠ origId)
    (hinj : ∀ j, j < n → ∀ i, i < j → freshId i ≠ freshId j) :
    (createFixedExpenseCopies t n freshId now).length = n
    ∧ (∀ i, i < n → (createFixedExpenseCopies t n freshId now)[i]? =
        some
          { id := freshId i, description := t.description, amount := t.amount,
            category := t.category, dueDate := addMonthsDF t.dueDate (i + 1),
            status := PaymentStatus.unpaid, paymentSourceId := none,
            type := t.type, isFixed := true, createdAt := now })
    ∧ ((createFixedExpenseCopies t n freshId now).map Expense.id).Nodup
    ∧ origId ∉ (createFixedExpenseCopies t n freshId now).map Expense.id := by
  have hmap : (createFixedExpenseCopies t n freshId now).map Expense.id =
      (List.range n).map freshId := by
    simp [createFixedExpenseCopies, List.map_map, Function.comp]
  refine ⟨by simp [createFixedExpenseCopies], ?_, ?_, ?_⟩
  · intro i hi
    simp [createFixedExpenseCopies, List.getElem?_map, List.getElem?_range, hi]
  · rw [hmap]
    refine List.Nodup.map_on ?_ (List.nodup_range n)
    intro x hx y hy hxy
    by_contra hne
    rcases Nat.lt_or_ge x y with h | h
    · exact hinj y (List.mem_range.mp hy) x h hxy
    · exact hinj x (List.mem_range.mp hx) y (lt_of_le_of_ne h (Ne.symm hne)) hxy.symm
  · rw [hmap]
    intro hmem
    rcases List.mem_map.mp hmem with ⟨i, hi, hid⟩
    exact hfresh i (List.mem_range.mp hi) hid

/-- Claim C9 witness: a Jan 31 2025 template copied 2 months ahead — the
first copy lands on Feb 28 2025 (day clamped), with status reset, source
cleared and a fresh id. -/
theorem c9_witness :
    ((1 : Nat) ≤ 2 ∧ (∀ i, i < 2 → c9Fresh i ≠ "orig")
      ∧ (∀ j, j < 2 → ∀ i, i < j → c9Fresh i ≠ c9Fresh j))
    ∧ (createFixedExpenseCopies c9Template 2 c9Fresh ⟨2025, 1, 15, 0⟩)[0]? =
        some
          { id := c9Fresh 0, description := c9Template.description,
            amount := c9Template.amount, category := c9Template.category,
            dueDate := addMonthsDF c9Template.dueDate 1,
            status := PaymentStatus.unpaid, paymentSourceId := none,
            type := c9Template.type, isFixed := true,
            createdAt := ⟨2025, 1, 15, 0⟩ }
    ∧ addMonthsDF c9Template.dueDate 1 = ⟨2025, 2, 28, 43200000⟩ := by
  refine ⟨⟨by decide, by decide, by decide⟩, ?_, by decide⟩
  exact (c9_fixed_copies c9Template 2 c9Fresh ⟨2025, 1, 15, 0⟩ "orig" (by decide)
    (by decide) (by decide)).2.1 0 (by decide)

/-- Claim C10, counterexample: the fixed-expense due-date remap is NOT
"same day-of-month clamped to the viewed month's length". For a fixed
expense due Jan 31 2024 (leap year) viewed in Feb 2025, date-fns
`setMonth` clamps to Feb 29 2024 (the ORIGINAL year's February) and
`setYear(2025)` then rolls the non-existent Feb 29 2025 over to
Mar 1 2025 — not the claimed Feb 28 2025, and not inside the viewed
month at all. -/
theorem c10_counterexample :
    filteredExpensesFn [c10Fixed] c10Month =
      [{ c10Fixed with dueDate := ⟨2025, 3, 1, 0⟩ }]
    ∧ specRemapOntoMonth c10Fixed.dueDate c10Month = ⟨2025, 2, 28, 0⟩
    ∧ filteredExpensesFn [c10Fixed] c10Month ≠
      [{ c10Fixed with dueDate := specRemapOntoMonth c10Fixed.dueDate c10Month }] := by
  refine ⟨?_, by decide, ?_⟩ <;>
    simp [filteredExpensesFn, expenseKeep, expenseAdjust, c10Fixed, c10Month,
      isWithinInterval, dtLe, startOfMonth, endOfMonth, daysInMonth, isLeapYear,
      createdOnOrBefore, getMonth, getYear, dfSetMonth, dfSetYear,
      specRemapOntoMonth]

/-- Claim C10 as amended: a fixed expense appears in every viewed month
from its creation month onward; when its due date lies outside the viewed
month the shown entry keeps every field except `dueDate`, which becomes
`setYear(setMonth(dueDate, M.month), M.year)` — the day is clamped to the
target month's length in the dueDate's ORIGINAL year, and the subsequent
year substitution rolls an out-of-range Feb 29 into Mar 1. A non-fixed
expense appears iff its due date lies in the viewed month, unmodified. -/
theorem c10_amended_fixed_projection (expenses : List Expense) (M : DateTime)
    (e : Expense) (he : e ∈ expenses) :
    (e.isFixed = true → createdOnOrBefore e M = true →
      (if monthFilter e.dueDate M = true then e
       else { e with dueDate := dfSetYear (dfSetMonth e.dueDate (getMonth M)) (getYear M) })
        ∈ filteredExpensesFn expenses M)
    ∧ (e.isFixed = false →
        (e ∈ filteredExpensesFn expenses M ↔ monthFilter e.dueDate M = true)) := by
  constructor
  · intro hf hc
    have hkeep : expenseKeep M e = true := by
      rw [expenseKeep, hf, hc]
      simp
    have hmem := mem_filteredExpenses_of_keep expenses M e he hkeep
    rwa [expenseAdjust_fixed_cases M e hf] at hmem
  · intro hf
    rw [mem_filteredExpenses_nonFixed expenses M e hf]
    simp [he]

/-- Claim C10 witness: the Jan 31 2024 fixed expense viewed in Feb 2025 is
projected into the filtered list with its due date remapped by the
setMonth/setYear composition. -/
theorem c10_witness :
    (c10Fixed ∈ [c10Fixed] ∧ c10Fixed.isFixed = true
      ∧ createdOnOrBefore c10Fixed c10Month = true
      ∧ monthFilter c10Fixed.dueDate c10Month = false)
    ∧ (if monthFilter c10Fixed.dueDate c10Month = true then c10Fixed
       else
         { c10Fixed with
           dueDate := dfSetYear (dfSetMonth c10Fixed.dueDate (getMonth c10Month))
             (getYear c10Month) })
        ∈ filteredExpensesFn [c10Fixed] c10Month := by
  refine ⟨⟨List.mem_singleton.mpr rfl, by decide, by decide, by decide⟩, ?_⟩
  exact (c10_amended_fixed_projection [c10Fixed] c10Month c10Fixed
    (List.mem_singleton.mpr rfl)).1 (by decide) (by decide)
